import Mathlib

/-!
Verification of the `distance3d` geometry/contact library against its
specification.  The Python sources (`distance.py`, `pressure_field.py`) are
shallowly embedded over exact rationals: every float becomes a `ℚ`, every
3-vector a `Vec3`.  Euclidean norms (`np.linalg.norm`, a square root) are
modelled by their squares wherever only the square matters, and by an explicit
square-root routine parameter `rt` (the external floating-point `sqrt`) where
the value itself enters further computation.  A float `NaN` produced by a
`0/0` division, and a raised `AssertionError`, are both modelled as `none` of
an `Option` result.
-/

/-- A 3D vector of exact rationals, modelling a numpy array of shape (3,). -/
structure Vec3 where
  x : ℚ
  y : ℚ
  z : ℚ
deriving DecidableEq, Repr

namespace Vec3

def add (u v : Vec3) : Vec3 := ⟨u.x + v.x, u.y + v.y, u.z + v.z⟩

def sub (u v : Vec3) : Vec3 := ⟨u.x - v.x, u.y - v.y, u.z - v.z⟩

def neg (u : Vec3) : Vec3 := ⟨-u.x, -u.y, -u.z⟩

def smul (a : ℚ) (u : Vec3) : Vec3 := ⟨a * u.x, a * u.y, a * u.z⟩

instance : Add Vec3 := ⟨Vec3.add⟩

instance : Sub Vec3 := ⟨Vec3.sub⟩

instance : Neg Vec3 := ⟨Vec3.neg⟩

instance : SMul ℚ Vec3 := ⟨Vec3.smul⟩

instance : Zero Vec3 := ⟨⟨0, 0, 0⟩⟩

/-- `np.dot` on 3-vectors. -/
def dot (u v : Vec3) : ℚ := u.x * v.x + u.y * v.y + u.z * v.z

/-- `np.cross` on 3-vectors. -/
def cross (u v : Vec3) : Vec3 :=
  ⟨u.y * v.z - u.z * v.y, u.z * v.x - u.x * v.z, u.x * v.y - u.y * v.x⟩

/-- Squared Euclidean norm: the exact square of `np.linalg.norm`. -/
def normSq (u : Vec3) : ℚ := dot u u

/-- Componentwise minimum (`np.minimum`). -/
def vmin (u v : Vec3) : Vec3 := ⟨min u.x v.x, min u.y v.y, min u.z v.z⟩

/-- Componentwise maximum (`np.maximum`). -/
def vmax (u v : Vec3) : Vec3 := ⟨max u.x v.x, max u.y v.y, max u.z v.z⟩

end Vec3

/-! ## Embedding of `distance.py` -/

/-- Result of `_point_to_line` (distance reported as its square). -/
structure PointLineResult where
  distSq : ℚ
  contactPoint : Vec3
  t : ℚ
deriving DecidableEq, Repr

/-- `_point_to_line(point, line_point, line_direction)` from `distance.py`:
`diff = point - line_point`, `t = line_direction ⬝ diff`, closest point is
`line_point + t * line_direction`, distance is `‖diff - t * line_direction‖`
(we record its square). -/
def pointToLine (point linePoint lineDirection : Vec3) : PointLineResult :=
  let diff := point - linePoint
  let t := Vec3.dot lineDirection diff
  let directionFraction := t • lineDirection
  let diff2 := diff - directionFraction
  let pointOnLine := linePoint + directionFraction
  ⟨Vec3.normSq diff2, pointOnLine, t⟩

/-- `point_to_line_segment(point, segment_start, segment_end)` from
`distance.py`.  The source computes
`t = dot(point - start, d) / dot(d, d)` with `d = end - start` and no guard:
when the segment is degenerate (`dot d d = 0`) the float division is `0/0`,
producing `NaN`, which contaminates the clamp, the contact point and the
returned distance.  That `NaN` outcome is modelled as `none`; otherwise the
result is `some (squared distance, contact point)`. -/
def point_to_line_segment (point segmentStart segmentEnd : Vec3) :
    Option (ℚ × Vec3) :=
  let segmentDirection := segmentEnd - segmentStart
  let denom := Vec3.dot segmentDirection segmentDirection
  if denom = 0 then
    none
  else
    let t := Vec3.dot (point - segmentStart) segmentDirection / denom
    let tc := min (max t 0) 1
    let contactPoint := segmentStart + tc • segmentDirection
    some (Vec3.normSq (point - contactPoint), contactPoint)

/-- Result of `_line_to_line` (distance reported as its square:
the source returns `sqrt(abs(dist_squared))`, so the square is
`|dist_squared|`). -/
structure LineLineResult where
  distSq : ℚ
  contactPoint1 : Vec3
  contactPoint2 : Vec3
  t1 : ℚ
  t2 : ℚ
deriving DecidableEq, Repr

/-- The branch test of `_line_to_line`: the source takes the general branch
when `abs(det) >= epsilon` with `det = 1 - a12²`, `a12 = -(d1 ⬝ d2)`; the
parallel fallback is taken exactly when `|1 - (d1 ⬝ d2)²| < ε`. -/
def lineToLineParallelBranch (lineDirection1 lineDirection2 : Vec3)
    (epsilon : ℚ) : Bool :=
  let a12 := -(Vec3.dot lineDirection1 lineDirection2)
  let det := 1 - a12 * a12
  ¬ (epsilon ≤ |det|)

/-- `_line_to_line(line_point1, line_direction1, line_point2, line_direction2,
epsilon)` from `distance.py`.  General branch solves the 2×2 system; parallel
fallback sets `t1 = -b1`, `t2 = 0`, `contact_point2 = line_point2`. -/
def lineToLine (linePoint1 lineDirection1 linePoint2 lineDirection2 : Vec3)
    (epsilon : ℚ) : LineLineResult :=
  let diff := linePoint1 - linePoint2
  let a12 := -(Vec3.dot lineDirection1 lineDirection2)
  let b1 := Vec3.dot lineDirection1 diff
  let c := Vec3.dot diff diff
  let det := 1 - a12 * a12
  if epsilon ≤ |det| then
    let b2 := -(Vec3.dot lineDirection2 diff)
    let t1 := (a12 * b2 - b1) / det
    let t2 := (a12 * b1 - b2) / det
    let distSquared :=
      t1 * (t1 + a12 * t2 + 2 * b1) + t2 * (a12 * t1 + t2 + 2 * b2) + c
    let contactPoint2 := linePoint2 + t2 • lineDirection2
    let contactPoint1 := linePoint1 + t1 • lineDirection1
    ⟨|distSquared|, contactPoint1, contactPoint2, t1, t2⟩
  else
    let t1 := -b1
    let t2 := (0 : ℚ)
    let distSquared := b1 * t1 + c
    let contactPoint2 := linePoint2
    let contactPoint1 := linePoint1 + t1 • lineDirection1
    ⟨|distSquared|, contactPoint1, contactPoint2, t1, t2⟩

/-- `point_to_plane(point, plane_point, plane_normal, signed)` from
`distance.py`: `t = plane_normal ⬝ (point - plane_point)` is the signed
distance (exact, no square root for a unit normal up to |·|); the closest
point on the plane is `point - t * plane_normal`; the unsigned mode returns
`|t|`. -/
def point_to_plane (point planePoint planeNormal : Vec3) (signed : Bool) :
    ℚ × Vec3 :=
  let t := Vec3.dot planeNormal (point - planePoint)
  let contactPointPlane := point - t • planeNormal
  if signed then (t, contactPointPlane) else (|t|, contactPointPlane)

/-! ## Embedding of `pressure_field.py` -/

/-- `np.sign` on a rational. -/
def signQ (a : ℚ) : ℚ := if 0 < a then 1 else if a < 0 then -1 else 0

/-- `points_to_plane_signed(points, plane_point, plane_normal)`:
the signed distance of each point to the plane. -/
def points_to_plane_signed (points : List Vec3) (planePoint planeNormal : Vec3) :
    List ℚ :=
  points.map fun p => Vec3.dot (p - planePoint) planeNormal

/-- A tetrahedron as 4 vertex indices (one row of the `tetrahedra` array). -/
structure Tet4 where
  i0 : ℕ
  i1 : ℕ
  i2 : ℕ
  i3 : ℕ
deriving DecidableEq, Repr

/-- Vertex lookup (`vertices[i]`); indices are in bounds in every use. -/
def vertAt (vertices : List Vec3) (i : ℕ) : Vec3 := vertices.getD i 0

/-- The per-tetrahedron body of `intersecting_tetrahedra`: signed distances of
the 4 vertices to the contact plane, then `sign(min) != sign(max)`. -/
def tetrahedronStraddles (vertices : List Vec3) (tet : Tet4)
    (contactPoint normal : Vec3) : Bool :=
  let d0 := Vec3.dot (vertAt vertices tet.i0 - contactPoint) normal
  let d1 := Vec3.dot (vertAt vertices tet.i1 - contactPoint) normal
  let d2 := Vec3.dot (vertAt vertices tet.i2 - contactPoint) normal
  let d3 := Vec3.dot (vertAt vertices tet.i3 - contactPoint) normal
  let mins := min (min (min d0 d1) d2) d3
  let maxs := max (max (max d0 d1) d2) d3
  signQ mins ≠ signQ maxs

/-- `intersecting_tetrahedra(vertices, tetrahedra, contact_point, normal)`:
rowwise signed distances, `sign(min(d, axis=1)) != sign(max(d, axis=1))`. -/
def intersecting_tetrahedra (vertices : List Vec3) (tetrahedra : List Tet4)
    (contactPoint normal : Vec3) : List Bool :=
  tetrahedra.map fun tet => tetrahedronStraddles vertices tet contactPoint normal

/-- Modelled from the spec: `line_segment_to_plane` (imported from
`distance3d.distance`, not among the shown sources).  Per spec §4.1/§6 it
returns the segment/plane distance, the scalar parameter along the segment and
the intersection point obtained by linear interpolation between the signed
distances of the two endpoints.  Only the third component is consumed by
`contact_plane_projection`, and there the endpoint distances have strictly
opposite signs, so the denominator is nonzero. -/
def line_segment_to_plane (segmentStart segmentEnd planePoint planeNormal :
    Vec3) : ℚ × ℚ × Vec3 :=
  let d0 := Vec3.dot (segmentStart - planePoint) planeNormal
  let d1 := Vec3.dot (segmentEnd - planePoint) planeNormal
  let t := d0 / (d0 - d1)
  let intersectionPoint := segmentStart + t • (segmentEnd - segmentStart)
  (|d0|, t, intersectionPoint)

/-- The vertex classification of `contact_plane_projection`:
`d = sign(signed distances)`, `neg = where(d < 0)`, `pos = where(d >= 0)`. -/
def projectionNegIndices (planePoint planeNormal : Vec3)
    (tetrahedronPoints : List Vec3) : List ℕ :=
  let d := (points_to_plane_signed tetrahedronPoints planePoint planeNormal).map signQ
  (List.range tetrahedronPoints.length).filter fun i => d.getD i 0 < 0

/-- `pos = where(d >= 0)` of `contact_plane_projection`. -/
def projectionPosIndices (planePoint planeNormal : Vec3)
    (tetrahedronPoints : List Vec3) : List ℕ :=
  let d := (points_to_plane_signed tetrahedronPoints planePoint planeNormal).map signQ
  (List.range tetrahedronPoints.length).filter fun i => 0 ≤ d.getD i 0

/-- The raw intersection-point list built by `contact_plane_projection`: one
segment/plane intersection per (negative, non-negative) vertex pair. -/
def projectionRawPoints (planePoint planeNormal : Vec3)
    (tetrahedronPoints : List Vec3) : List Vec3 :=
  (projectionNegIndices planePoint planeNormal tetrahedronPoints).flatMap fun n =>
    (projectionPosIndices planePoint planeNormal tetrahedronPoints).map fun p =>
      (line_segment_to_plane (tetrahedronPoints.getD n 0)
        (tetrahedronPoints.getD p 0) planePoint planeNormal).2.2

/-- `contact_plane_projection(plane_point, plane_normal, tetrahedron_points)`:
classify vertices by sign, intersect every (negative, non-negative) edge with
the plane, and `assert len(triangle_points) >= 3`.  The `AssertionError` raised
when fewer than 3 points result is modelled as `none`. -/
def contact_plane_projection (planePoint planeNormal : Vec3)
    (tetrahedronPoints : List Vec3) : Option (List Vec3) :=
  let trianglePoints := projectionRawPoints planePoint planeNormal tetrahedronPoints
  if 3 ≤ trianglePoints.length then some trianglePoints else none

/-- `polygon_area(points)`, parameterized by the floating-point square-root
routine `rt` (`np.linalg.norm v = rt (‖v‖²)`).  Triangle: half the cross
product magnitude; quadrilateral: sum of the two triangles split along one
diagonal.  The source asserts `len(points) == 4` in the fallthrough case; its
only callers pass lists of length 3 or 4, so the default branch is
unreachable there and is given the junk value 0. -/
def polygon_area (rt : ℚ → ℚ) (points : List Vec3) : ℚ :=
  match points with
  | [p0, p1, p2] =>
      (1 / 2) * rt (Vec3.normSq (Vec3.cross (p1 - p0) (p2 - p0)))
  | [p0, p1, p2, p3] =>
      (1 / 2) * (rt (Vec3.normSq (Vec3.cross (p1 - p0) (p2 - p0)))
        + rt (Vec3.normSq (Vec3.cross (p1 - p3) (p2 - p3))))
  | _ => 0

/-- `np.mean(points, axis=0)`. -/
def meanPoint (points : List Vec3) : Vec3 :=
  ((1 : ℚ) / points.length) • (points.foldl (· + ·) 0)

/-- Modelled from the spec: `barycentric_coordinates_tetrahedron(p, tetra)`
(imported from `distance3d.geometry`, not among the shown sources).  Per spec
§6 it returns weights `[w0,w1,w2,w3]` summing to 1 that express the point
relative to the tetrahedron's vertices; here solved exactly by Cramer's rule
on the edge basis (`w0` is defined as `1 - w1 - w2 - w3`, so the weights sum
to 1 even for a degenerate tetrahedron, where the divisions by the zero
determinant yield Lean's `0` convention). -/
def barycentric_coordinates_tetrahedron (p v0 v1 v2 v3 : Vec3) :
    ℚ × ℚ × ℚ × ℚ :=
  let e1 := v1 - v0
  let e2 := v2 - v0
  let e3 := v3 - v0
  let b := p - v0
  let det := Vec3.dot e1 (Vec3.cross e2 e3)
  let w1 := Vec3.dot b (Vec3.cross e2 e3) / det
  let w2 := Vec3.dot e1 (Vec3.cross b e3) / det
  let w3 := Vec3.dot e1 (Vec3.cross e2 b) / det
  (1 - w1 - w2 - w3, w1, w2, w3)

/-! ## Transforms, AABBs, broad phase (external collaborators of
`contact_forces`, modelled from the spec's data model and §6 contracts) -/

/-- Modelled from the spec: a rigid mesh-to-world transform (orthonormal
rotation + translation), the `pytransform3d` 4×4 matrix restricted to its
rotation rows `r0,r1,r2` and translation `t`. -/
structure Transform where
  r0 : Vec3
  r1 : Vec3
  r2 : Vec3
  t : Vec3
deriving DecidableEq, Repr

namespace Transform

/-- Apply only the rotation part (`T[:3, :3].dot(v)`). -/
def rotApply (T : Transform) (v : Vec3) : Vec3 :=
  ⟨Vec3.dot T.r0 v, Vec3.dot T.r1 v, Vec3.dot T.r2 v⟩

/-- Apply the full rigid transform to a point. -/
def apply (T : Transform) (v : Vec3) : Vec3 := T.rotApply v + T.t

/-- Rows of the transposed rotation part. -/
def rotTransposed (T : Transform) : Vec3 × Vec3 × Vec3 :=
  (⟨T.r0.x, T.r1.x, T.r2.x⟩, ⟨T.r0.y, T.r1.y, T.r2.y⟩, ⟨T.r0.z, T.r1.z, T.r2.z⟩)

/-- Modelled from the spec: `pt.invert_transform` for a rigid transform:
`(R, t)⁻¹ = (Rᵀ, -Rᵀ t)`. -/
def invert (T : Transform) : Transform :=
  let s := T.rotTransposed
  ⟨s.1, s.2.1, s.2.2, -(Transform.rotApply ⟨s.1, s.2.1, s.2.2, 0⟩ T.t)⟩

/-- Modelled from the spec: `pt.concat(A, B)`, the transform that applies `A`
first and then `B` (`pytransform3d` convention `concat(A2B, B2C) = A2C`). -/
def concat (A B : Transform) : Transform :=
  let acol := A.rotTransposed
  let mulRow := fun (r : Vec3) =>
    (⟨Vec3.dot r acol.1, Vec3.dot r acol.2.1, Vec3.dot r acol.2.2⟩ : Vec3)
  ⟨mulRow B.r0, mulRow B.r1, mulRow B.r2, B.rotApply A.t + B.t⟩

end Transform

/-- Axis-aligned bounding box: componentwise lower and upper corners. -/
structure Aabb where
  lo : Vec3
  hi : Vec3
deriving DecidableEq, Repr

/-- Modelled from the spec: `tetrahedral_mesh_aabbs(vertices, tetrahedra)`
(imported from `distance3d.mesh`, not among the shown sources): one box per
tetrahedron, bounding its 4 vertices. -/
def tetrahedral_mesh_aabbs (vertices : List Vec3) (tetrahedra : List Tet4) :
    List Aabb :=
  tetrahedra.map fun tet =>
    let p0 := vertAt vertices tet.i0
    let p1 := vertAt vertices tet.i1
    let p2 := vertAt vertices tet.i2
    let p3 := vertAt vertices tet.i3
    ⟨Vec3.vmin (Vec3.vmin (Vec3.vmin p0 p1) p2) p3,
     Vec3.vmax (Vec3.vmax (Vec3.vmax p0 p1) p2) p3⟩

/-- Closed-interval AABB overlap on all 3 axes (touching counts). -/
def aabbOverlap (a b : Aabb) : Bool :=
  decide (a.lo.x ≤ b.hi.x) && decide (b.lo.x ≤ a.hi.x) &&
  decide (a.lo.y ≤ b.hi.y) && decide (b.lo.y ≤ a.hi.y) &&
  decide (a.lo.z ≤ b.hi.z) && decide (b.lo.z ≤ a.hi.z)

/-- Modelled from the spec: the broad-phase enumeration of `contact_forces`
(the external `aabbtree` build/query loop): for each box of mesh 1 in index
order, all boxes of mesh 2 it overlaps; the tree query is modelled by its
semantics — the list of overlapping leaf indices (ascending). -/
def broadPhasePairs (aabbs1 aabbs2 : List Aabb) : List (ℕ × ℕ) :=
  (List.range aabbs1.length).flatMap fun i =>
    ((List.range aabbs2.length).filter fun j =>
      aabbOverlap (aabbs1.getD i ⟨0, 0⟩) (aabbs2.getD j ⟨0, 0⟩)).map fun j =>
        (i, j)

/-! ## The pressure-integration loop of `contact_forces` -/

/-- One per-tetrahedron entry of the `forces1`/`forces2` dicts:
`(area * pressure, p, poly)`. -/
structure Contribution where
  f : ℚ
  com : Vec3
  poly : List Vec3
deriving DecidableEq, Repr

/-- The 4 vertex positions of a tetrahedron (`vertices[tetrahedra[idx]]`). -/
def tetrahedronPoints (vertices : List Vec3) (tet : Tet4) : List Vec3 :=
  [vertAt vertices tet.i0, vertAt vertices tet.i1,
   vertAt vertices tet.i2, vertAt vertices tet.i3]

/-- The per-tetrahedron computation of the integration loop: contact polygon,
area, centroid, barycentric interpolation of the vertex potentials, giving the
contribution `(area * pressure, p, poly)`.  `none` models the
`AssertionError` of `contact_plane_projection`. -/
def tetrahedronContribution (rt : ℚ → ℚ) (vertices : List Vec3)
    (potentials : List ℚ) (tet : Tet4) (contactPoint normal : Vec3) :
    Option Contribution :=
  match contact_plane_projection contactPoint normal
      (tetrahedronPoints vertices tet) with
  | none => none
  | some poly =>
    let area := polygon_area rt poly
    let p := meanPoint poly
    let c := barycentric_coordinates_tetrahedron p
      (vertAt vertices tet.i0) (vertAt vertices tet.i1)
      (vertAt vertices tet.i2) (vertAt vertices tet.i3)
    let pressure := c.1 * potentials.getD tet.i0 0
      + c.2.1 * potentials.getD tet.i1 0
      + c.2.2.1 * potentials.getD tet.i2 0
      + c.2.2.2 * potentials.getD tet.i3 0
    some ⟨area * pressure, p, poly⟩

/-- Python-dict assignment on an association list: overwrite in place if the
key is present (keeping its position), else append. -/
def updateAssoc {α : Type} : List (ℕ × α) → ℕ → α → List (ℕ × α)
  | [], k, v => [(k, v)]
  | (k', v') :: rest, k, v =>
    if k' = k then (k, v) :: rest else (k', v') :: updateAssoc rest k v

/-- The mutable state of the integration loop of `contact_forces`:
the two contribution dicts, the memo slot `last1`, and the object-1 variables
(`tetra1, poly1, area1, p1, pressure1`) that persist across iterations
(`none` while not yet assigned). -/
structure IntegrateState where
  forces1 : List (ℕ × Contribution)
  forces2 : List (ℕ × Contribution)
  last1 : ℤ
  cur1 : Option (List Vec3 × Contribution)
deriving DecidableEq, Repr

/-- One iteration of the integration loop (`for i in range(len(...))` body of
`contact_forces`).  The guard `idx1 != last1` uses `last1` exactly as the
source does: `last1` is initialized to `-1` before the loop and never
reassigned, so the state's `last1` field is left unchanged here.  A `none`
result models an uncaught exception (assertion failure in the projector, or
use of the object-1 variables before assignment). -/
def integrateStep (rt : ℚ → ℚ) (gjk : List Vec3 → List Vec3 → Bool)
    (vertices1 : List Vec3) (tetrahedra1 : List Tet4) (potentials1 : List ℚ)
    (vertices2 : List Vec3) (tetrahedra2 : List Tet4) (potentials2 : List ℚ)
    (contactPoint normal : Vec3) (st : IntegrateState) (pair : ℕ × ℕ) :
    Option IntegrateState :=
  let idx1 := pair.1
  let idx2 := pair.2
  let cur1comp : Option (Option (List Vec3 × Contribution)) :=
    if (idx1 : ℤ) ≠ st.last1 then
      let tet1 := tetrahedra1.getD idx1 ⟨0, 0, 0, 0⟩
      match tetrahedronContribution rt vertices1 potentials1 tet1 contactPoint
          normal with
      | none => none
      | some contrib1 => some (some (tetrahedronPoints vertices1 tet1, contrib1))
    else some st.cur1
  match cur1comp with
  | none => none
  | some cur1 =>
    match cur1 with
    | none => none
    | some tc1 =>
      let tet2 := tetrahedra2.getD idx2 ⟨0, 0, 0, 0⟩
      let tetra2 := tetrahedronPoints vertices2 tet2
      if gjk tc1.1 tetra2 then
        match tetrahedronContribution rt vertices2 potentials2 tet2
            contactPoint normal with
        | none => none
        | some contrib2 =>
          some ⟨updateAssoc st.forces1 idx1 tc1.2,
                updateAssoc st.forces2 idx2 contrib2,
                st.last1, some tc1⟩
      else
        some ⟨st.forces1, st.forces2, st.last1, some tc1⟩

/-- The integration loop of `contact_forces` over the confirmed pairs. -/
def integrateLoop (rt : ℚ → ℚ) (gjk : List Vec3 → List Vec3 → Bool)
    (vertices1 : List Vec3) (tetrahedra1 : List Tet4) (potentials1 : List ℚ)
    (vertices2 : List Vec3) (tetrahedra2 : List Tet4) (potentials2 : List ℚ)
    (contactPoint normal : Vec3) (pairs : List (ℕ × ℕ))
    (st : IntegrateState) : Option IntegrateState :=
  match pairs with
  | [] => some st
  | pair :: rest =>
    match integrateStep rt gjk vertices1 tetrahedra1 potentials1 vertices2
        tetrahedra2 potentials2 contactPoint normal st pair with
    | none => none
    | some st' =>
      integrateLoop rt gjk vertices1 tetrahedra1 potentials1 vertices2
        tetrahedra2 potentials2 contactPoint normal rest st'

/-- Replay of the integration loop's memo guard, recording the object-1
tetrahedron index each time its contribution is (re)computed: the guard is
`idx1 != last1` with `last1` initialized to `-1` and — exactly as in the
source — never reassigned. -/
def integrateComputedIndices1 (last1 : ℤ) : List (ℕ × ℕ) → List ℕ
  | [] => []
  | pair :: rest =>
    if (pair.1 : ℤ) ≠ last1 then
      pair.1 :: integrateComputedIndices1 last1 rest
    else
      integrateComputedIndices1 last1 rest

/-- Reference integrator following the spec's words: for every confirmed pair
the object-1 contribution is recomputed unconditionally (no memo), then the
pair is confirmed by the exact overlap test and both contribution maps are
updated. -/
def referenceIntegrate (rt : ℚ → ℚ) (gjk : List Vec3 → List Vec3 → Bool)
    (vertices1 : List Vec3) (tetrahedra1 : List Tet4) (potentials1 : List ℚ)
    (vertices2 : List Vec3) (tetrahedra2 : List Tet4) (potentials2 : List ℚ)
    (contactPoint normal : Vec3) (pairs : List (ℕ × ℕ))
    (forces1 forces2 : List (ℕ × Contribution)) :
    Option (List (ℕ × Contribution) × List (ℕ × Contribution)) :=
  match pairs with
  | [] => some (forces1, forces2)
  | pair :: rest =>
    let tet1 := tetrahedra1.getD pair.1 ⟨0, 0, 0, 0⟩
    match tetrahedronContribution rt vertices1 potentials1 tet1 contactPoint
        normal with
    | none => none
    | some contrib1 =>
      let tet2 := tetrahedra2.getD pair.2 ⟨0, 0, 0, 0⟩
      let tetra2 := tetrahedronPoints vertices2 tet2
      if gjk (tetrahedronPoints vertices1 tet1) tetra2 then
        match tetrahedronContribution rt vertices2 potentials2 tet2
            contactPoint normal with
        | none => none
        | some contrib2 =>
          referenceIntegrate rt gjk vertices1 tetrahedra1 potentials1
            vertices2 tetrahedra2 potentials2 contactPoint normal rest
            (updateAssoc forces1 pair.1 contrib1)
            (updateAssoc forces2 pair.2 contrib2)
      else
        referenceIntegrate rt gjk vertices1 tetrahedra1 potentials1
          vertices2 tetrahedra2 potentials2 contactPoint normal rest
          forces1 forces2

/-! ## The Contact Force Orchestrator (`contact_forces`) -/

/-- The broad-phase pairs of `contact_forces` restricted by the narrow-phase
plane-straddle test on both tetrahedra of each pair
(`keep = logical_and(keep1, keep2)` applied to the candidate index arrays). -/
def narrowPhasePairs (vertices1 : List Vec3) (tetrahedra1 : List Tet4)
    (vertices2 : List Vec3) (tetrahedra2 : List Tet4)
    (contactPoint normal : Vec3) : List (ℕ × ℕ) :=
  (broadPhasePairs (tetrahedral_mesh_aabbs vertices1 tetrahedra1)
      (tetrahedral_mesh_aabbs vertices2 tetrahedra2)).filter fun ij =>
    tetrahedronStraddles vertices1 (tetrahedra1.getD ij.1 ⟨0, 0, 0, 0⟩)
      contactPoint normal
    && tetrahedronStraddles vertices2 (tetrahedra2.getD ij.2 ⟨0, 0, 0, 0⟩)
      contactPoint normal

/-- A wrench: world-frame force and torque. -/
structure Wrench where
  force : Vec3
  torque : Vec3
deriving DecidableEq, Repr

/-- The optional diagnostics dict of `contact_forces`. -/
structure ContactDetails where
  pressures1 : List ℚ
  pressures2 : List ℚ
  coms1 : List Vec3
  coms2 : List Vec3
  polys1 : List (List Vec3)
  polys2 : List (List Vec3)
deriving DecidableEq, Repr

/-- The return value of `contact_forces`.  The Python function returns the
tuple `(intersection, wrench12, wrench21)` — with `details` appended when
`return_details=True`; here `details = none` models the 3-tuple shape and
`details = some _` the 4-tuple shape. -/
structure ContactResult where
  intersects : Bool
  wrench12 : Option Wrench
  wrench21 : Option Wrench
  details : Option ContactDetails
deriving DecidableEq, Repr

/-- Sum of the scalar contributions in one forces dict
(`sum([forces[f][0] for f in forces])`). -/
def sumContributions (forces : List (ℕ × Contribution)) : ℚ :=
  (forces.map fun kv => kv.2.f).sum

/-- The wrench-assembly tail of `contact_forces` (its lines from
`normal_in_world = ...` to the `return`): the per-object contribution sums
scaled by the world-frame normal (`+` for body 2 on body 1, `-` for body 1 on
body 2), torque emitted as zero, details dict when requested. -/
def assembleContactResult (mesh22origin : Transform) (normal : Vec3)
    (st : IntegrateState) (returnDetails : Bool) : ContactResult :=
  let normalInWorld := mesh22origin.rotApply normal
  let force12 := sumContributions st.forces1 • normalInWorld
  let wrench12 : Wrench := ⟨force12, 0⟩
  let force21 := sumContributions st.forces2 • (-normalInWorld)
  let wrench21 : Wrench := ⟨force21, 0⟩
  let details : Option ContactDetails :=
    if returnDetails then
      some ⟨st.forces1.map fun kv => kv.2.f,
            st.forces2.map fun kv => kv.2.f,
            st.forces1.map fun kv => kv.2.com,
            st.forces2.map fun kv => kv.2.com,
            st.forces1.map fun kv => kv.2.poly,
            st.forces2.map fun kv => kv.2.poly⟩
    else none
  ⟨true, some wrench12, some wrench21, details⟩

/-- `contact_forces(mesh12origin, vertices1_in_mesh1, tetrahedra1, potentials1,
mesh22origin, vertices2_in_mesh2, tetrahedra2, potentials2, return_details)`
from `pressure_field.py`, parameterized by the external collaborators of spec
§6: `rt` (the floating-point square root inside `np.linalg.norm`),
`mpr` (`mpr_penetration` on the two convex hulls, returning
`(intersection, depth, normal, contact_point)`), and `gjk`
(`gjk_intersection` on two tetrahedra).  `none` models an uncaught
exception; otherwise the `ContactResult` mirrors the returned tuple. -/
def contact_forces (rt : ℚ → ℚ)
    (mpr : List Vec3 → List Vec3 → Bool × ℚ × Vec3 × Vec3)
    (gjk : List Vec3 → List Vec3 → Bool)
    (mesh12origin : Transform) (vertices1InMesh1 : List Vec3)
    (tetrahedra1 : List Tet4) (potentials1 : List ℚ)
    (mesh22origin : Transform) (vertices2InMesh2 : List Vec3)
    (tetrahedra2 : List Tet4) (potentials2 : List ℚ)
    (returnDetails : Bool) : Option ContactResult :=
  let origin2mesh2 := mesh22origin.invert
  let mesh12mesh2 := mesh12origin.concat origin2mesh2
  let vertices1InMesh2 := vertices1InMesh1.map mesh12mesh2.apply
  let m := mpr vertices1InMesh2 vertices2InMesh2
  if m.1 = false then
    some ⟨false, none, none, none⟩
  else
    let normal := m.2.2.1
    let contactPoint := m.2.2.2
    let keptPairs := narrowPhasePairs vertices1InMesh2 tetrahedra1
      vertices2InMesh2 tetrahedra2 contactPoint normal
    match integrateLoop rt gjk vertices1InMesh2 tetrahedra1 potentials1
        vertices2InMesh2 tetrahedra2 potentials2 contactPoint normal keptPairs
        ⟨[], [], -1, none⟩ with
    | none => none
    | some st =>
      some (assembleContactResult mesh22origin normal st returnDetails)

/-- An exact rational square root for perfect squares (numerator and
denominator both perfect squares); used to instantiate the external
floating-point square-root parameter `rt` at concrete inputs where every
computed norm is rational. -/
def sqrtQ (q : ℚ) : ℚ := (Nat.sqrt q.num.toNat : ℚ) / (Nat.sqrt q.den : ℚ)


/-! ## Componentwise simp lemmas for evaluation -/

@[simp] lemma Vec3.add_def (u v : Vec3) :
    u + v = ⟨u.x + v.x, u.y + v.y, u.z + v.z⟩ := rfl

@[simp] lemma Vec3.sub_def (u v : Vec3) :
    u - v = ⟨u.x - v.x, u.y - v.y, u.z - v.z⟩ := rfl

@[simp] lemma Vec3.neg_def (u : Vec3) : -u = ⟨-u.x, -u.y, -u.z⟩ := rfl

@[simp] lemma Vec3.smul_def (a : ℚ) (u : Vec3) :
    a • u = ⟨a * u.x, a * u.y, a * u.z⟩ := rfl

@[simp] lemma Vec3.zero_def : (0 : Vec3) = ⟨0, 0, 0⟩ := rfl

@[simp] lemma Vec3.x_zero : (0 : Vec3).x = 0 := rfl

@[simp] lemma Vec3.y_zero : (0 : Vec3).y = 0 := rfl

@[simp] lemma Vec3.z_zero : (0 : Vec3).z = 0 := rfl

@[simp] lemma Vec3.dot_def (u v : Vec3) :
    Vec3.dot u v = u.x * v.x + u.y * v.y + u.z * v.z := rfl

@[simp] lemma Vec3.cross_def (u v : Vec3) :
    Vec3.cross u v =
      ⟨u.y * v.z - u.z * v.y, u.z * v.x - u.x * v.z, u.x * v.y - u.y * v.x⟩ :=
  rfl

@[simp] lemma Vec3.normSq_def (u : Vec3) :
    Vec3.normSq u = u.x * u.x + u.y * u.y + u.z * u.z := rfl

@[simp] lemma Vec3.vmin_def (u v : Vec3) :
    Vec3.vmin u v = ⟨min u.x v.x, min u.y v.y, min u.z v.z⟩ := rfl

@[simp] lemma Vec3.vmax_def (u v : Vec3) :
    Vec3.vmax u v = ⟨max u.x v.x, max u.y v.y, max u.z v.z⟩ := rfl

lemma Vec3.add_zero_smul (s d : Vec3) : s + (0 : ℚ) • d = s := by
  cases s; cases d; simp

lemma Vec3.add_one_smul_sub (s e : Vec3) : s + (1 : ℚ) • (e - s) = e := by
  cases s; cases e
  simp only [Vec3.sub_def, Vec3.smul_def, Vec3.add_def, Vec3.mk.injEq]
  refine ⟨by ring, by ring, by ring⟩

lemma Vec3.smul_neg_eq (a : ℚ) (v : Vec3) : a • (-v) = -(a • v) := by
  cases v
  simp only [Vec3.neg_def, Vec3.smul_def, Vec3.mk.injEq]
  refine ⟨by ring, by ring, by ring⟩

/-! ## Evaluation lemmas at the concrete straddling tetrahedron
`(0,0,-1), (1,0,1), (0,1,1), (0,0,1)` against the plane `z = 0` -/

lemma sqrtQ_sixteenth : sqrtQ (1/16) = 1/4 := by
  unfold sqrtQ
  norm_num [Nat.sqrt]

lemma projection_concrete_tri : contact_plane_projection ⟨0,0,0⟩ ⟨0,0,1⟩
    (tetrahedronPoints [⟨0,0,-1⟩, ⟨1,0,1⟩, ⟨0,1,1⟩, ⟨0,0,1⟩] ⟨0,1,2,3⟩) =
    some [⟨1/2,0,0⟩, ⟨0,1/2,0⟩, ⟨0,0,0⟩] := by
  norm_num [tetrahedronPoints, vertAt, contact_plane_projection,
    projectionRawPoints, projectionNegIndices, projectionPosIndices,
    points_to_plane_signed, signQ, List.range_succ, List.filter,
    line_segment_to_plane]

lemma contribution_concrete_pot1 : tetrahedronContribution sqrtQ
    [⟨0,0,-1⟩, ⟨1,0,1⟩, ⟨0,1,1⟩, ⟨0,0,1⟩] [1,1,1,1] ⟨0,1,2,3⟩ ⟨0,0,0⟩ ⟨0,0,1⟩ =
    some ⟨1/8, ⟨1/6,1/6,0⟩, [⟨1/2,0,0⟩, ⟨0,1/2,0⟩, ⟨0,0,0⟩]⟩ := by
  unfold tetrahedronContribution
  rw [projection_concrete_tri]
  norm_num [vertAt, polygon_area, meanPoint, List.foldl, sqrtQ_sixteenth,
    barycentric_coordinates_tetrahedron]

lemma contribution_concrete_pot2 : tetrahedronContribution sqrtQ
    [⟨0,0,-1⟩, ⟨1,0,1⟩, ⟨0,1,1⟩, ⟨0,0,1⟩] [2,2,2,2] ⟨0,1,2,3⟩ ⟨0,0,0⟩ ⟨0,0,1⟩ =
    some ⟨1/4, ⟨1/6,1/6,0⟩, [⟨1/2,0,0⟩, ⟨0,1/2,0⟩, ⟨0,0,0⟩]⟩ := by
  unfold tetrahedronContribution
  rw [projection_concrete_tri]
  norm_num [vertAt, polygon_area, meanPoint, List.foldl, sqrtQ_sixteenth,
    barycentric_coordinates_tetrahedron]

lemma loop_concrete_single_pair : integrateLoop sqrtQ (fun _ _ => true)
    [⟨0,0,-1⟩, ⟨1,0,1⟩, ⟨0,1,1⟩, ⟨0,0,1⟩] [⟨0,1,2,3⟩] [1,1,1,1]
    [⟨0,0,-1⟩, ⟨1,0,1⟩, ⟨0,1,1⟩, ⟨0,0,1⟩] [⟨0,1,2,3⟩] [2,2,2,2]
    ⟨0,0,0⟩ ⟨0,0,1⟩ [(0,0)] ⟨[], [], -1, none⟩ =
    some ⟨[(0, ⟨1/8, ⟨1/6,1/6,0⟩, [⟨1/2,0,0⟩, ⟨0,1/2,0⟩, ⟨0,0,0⟩]⟩)],
          [(0, ⟨1/4, ⟨1/6,1/6,0⟩, [⟨1/2,0,0⟩, ⟨0,1/2,0⟩, ⟨0,0,0⟩]⟩)],
          -1,
          some (tetrahedronPoints [⟨0,0,-1⟩, ⟨1,0,1⟩, ⟨0,1,1⟩, ⟨0,0,1⟩] ⟨0,1,2,3⟩,
            ⟨1/8, ⟨1/6,1/6,0⟩, [⟨1/2,0,0⟩, ⟨0,1/2,0⟩, ⟨0,0,0⟩]⟩)⟩ := by
  norm_num [integrateLoop, integrateStep, contribution_concrete_pot1,
    contribution_concrete_pot2, updateAssoc]

lemma identity_transform_apply (v : Vec3) :
    ((⟨⟨1,0,0⟩,⟨0,1,0⟩,⟨0,0,1⟩,⟨0,0,0⟩⟩ : Transform).concat
      (⟨⟨1,0,0⟩,⟨0,1,0⟩,⟨0,0,1⟩,⟨0,0,0⟩⟩ : Transform).invert).apply v = v := by
  cases v
  norm_num [Transform.concat, Transform.invert, Transform.apply,
    Transform.rotApply, Transform.rotTransposed]

lemma narrow_concrete_single_pair :
    narrowPhasePairs [⟨0,0,-1⟩, ⟨1,0,1⟩, ⟨0,1,1⟩, ⟨0,0,1⟩] [⟨0,1,2,3⟩]
      [⟨0,0,-1⟩, ⟨1,0,1⟩, ⟨0,1,1⟩, ⟨0,0,1⟩] [⟨0,1,2,3⟩] ⟨0,0,0⟩ ⟨0,0,1⟩ =
    [(0, 0)] := by
  norm_num [narrowPhasePairs, broadPhasePairs, tetrahedral_mesh_aabbs,
    aabbOverlap, vertAt, tetrahedronStraddles, signQ, List.range_succ,
    List.filter]

/-- C1 (counterexample): two identical single-tetrahedron meshes (identity
poses), uniform potential 1 on object 1 and 2 on object 2, with a penetration
query answering the plane `z = 0`: `contact_forces` reports `intersects`, yet
the linear part of `wrench21`, `(0,0,-1/4)`, is not the negation of the
linear part of `wrench12`, `(0,0,1/8)` — the forces are not equal in
magnitude. -/
theorem contact_forces_not_equal_opposite_cex :
    contact_forces sqrtQ
      (fun _ _ => (true, 1, ⟨0,0,1⟩, ⟨0,0,0⟩)) (fun _ _ => true)
      ⟨⟨1,0,0⟩,⟨0,1,0⟩,⟨0,0,1⟩,⟨0,0,0⟩⟩ [⟨0,0,-1⟩, ⟨1,0,1⟩, ⟨0,1,1⟩, ⟨0,0,1⟩]
        [⟨0,1,2,3⟩] [1,1,1,1]
      ⟨⟨1,0,0⟩,⟨0,1,0⟩,⟨0,0,1⟩,⟨0,0,0⟩⟩ [⟨0,0,-1⟩, ⟨1,0,1⟩, ⟨0,1,1⟩, ⟨0,0,1⟩]
        [⟨0,1,2,3⟩] [2,2,2,2]
      false =
      some ⟨true, some ⟨⟨0,0,1/8⟩, ⟨0,0,0⟩⟩, some ⟨⟨0,0,-1/4⟩, ⟨0,0,0⟩⟩, none⟩ ∧
    (⟨0,0,-1/4⟩ : Vec3) ≠ -(⟨0,0,1/8⟩ : Vec3) := by
  constructor
  · norm_num [contact_forces, identity_transform_apply,
      narrow_concrete_single_pair, loop_concrete_single_pair,
      assembleContactResult, sumContributions, Transform.rotApply,
      List.sum_cons, List.sum_nil, -Prod.mk_zero_zero]
    rfl
  · norm_num [Vec3.mk.injEq]

/-- C1 (amended): whenever `contact_forces` (with diagnostics) returns a
result that reports an intersection, both torque parts are zero and the two
linear forces lie along the single shared world-frame contact normal with
opposite orientations — `wrench12 = (Σ object-1 contributions) · n_world`
and `wrench21 = (Σ object-2 contributions) · (-n_world)`, the sums being the
returned per-object pressure lists; the forces are equal in magnitude and
opposite exactly when the two per-object sums coincide. -/
theorem contact_forces_wrench_structure (rt : ℚ → ℚ)
    (mpr : List Vec3 → List Vec3 → Bool × ℚ × Vec3 × Vec3)
    (gjk : List Vec3 → List Vec3 → Bool)
    (m12o : Transform) (V1 : List Vec3) (T1 : List Tet4) (P1 : List ℚ)
    (m22o : Transform) (V2 : List Vec3) (T2 : List Tet4) (P2 : List ℚ)
    (r : ContactResult) (d : ContactDetails)
    (h : contact_forces rt mpr gjk m12o V1 T1 P1 m22o V2 T2 P2 true = some r)
    (hi : r.intersects = true) (hd : r.details = some d) :
    r.wrench12 = some ⟨d.pressures1.sum •
      m22o.rotApply (mpr (V1.map (m12o.concat m22o.invert).apply) V2).2.2.1,
      0⟩ ∧
    r.wrench21 = some ⟨d.pressures2.sum •
      (-(m22o.rotApply (mpr (V1.map (m12o.concat m22o.invert).apply) V2).2.2.1)),
      0⟩ ∧
    (d.pressures1.sum = d.pressures2.sum →
      d.pressures2.sum •
        (-(m22o.rotApply (mpr (V1.map (m12o.concat m22o.invert).apply) V2).2.2.1)) =
      -(d.pressures1.sum •
        m22o.rotApply (mpr (V1.map (m12o.concat m22o.invert).apply) V2).2.2.1)) := by
  simp only [contact_forces] at h
  cases hmb : (mpr (V1.map (m12o.concat m22o.invert).apply) V2).1 with
  | false =>
    rw [hmb] at h
    rw [if_pos rfl] at h
    simp only [Option.some.injEq] at h
    rw [← h] at hi
    simp at hi
  | true =>
    rw [hmb] at h
    rw [if_neg (by simp)] at h
    cases hloop : integrateLoop rt gjk (V1.map (m12o.concat m22o.invert).apply)
        T1 P1 V2 T2 P2
        (mpr (V1.map (m12o.concat m22o.invert).apply) V2).2.2.2
        (mpr (V1.map (m12o.concat m22o.invert).apply) V2).2.2.1
        (narrowPhasePairs (V1.map (m12o.concat m22o.invert).apply) T1 V2 T2
          (mpr (V1.map (m12o.concat m22o.invert).apply) V2).2.2.2
          (mpr (V1.map (m12o.concat m22o.invert).apply) V2).2.2.1)
        ⟨[], [], -1, none⟩ with
    | none =>
      rw [hloop] at h
      cases h
    | some st =>
      rw [hloop] at h
      simp only [Option.some.injEq] at h
      subst h
      simp only [assembleContactResult, if_true, Option.some.injEq] at hd
      subst hd
      refine ⟨rfl, rfl, ?_⟩
      intro hsum
      rw [← hsum]
      exact Vec3.smul_neg_eq _ _

lemma contact_forces_concrete_details : contact_forces sqrtQ
    (fun _ _ => (true, 1, ⟨0,0,1⟩, ⟨0,0,0⟩)) (fun _ _ => true)
    ⟨⟨1,0,0⟩,⟨0,1,0⟩,⟨0,0,1⟩,⟨0,0,0⟩⟩ [⟨0,0,-1⟩, ⟨1,0,1⟩, ⟨0,1,1⟩, ⟨0,0,1⟩]
      [⟨0,1,2,3⟩] [1,1,1,1]
    ⟨⟨1,0,0⟩,⟨0,1,0⟩,⟨0,0,1⟩,⟨0,0,0⟩⟩ [⟨0,0,-1⟩, ⟨1,0,1⟩, ⟨0,1,1⟩, ⟨0,0,1⟩]
      [⟨0,1,2,3⟩] [2,2,2,2]
    true =
    some ⟨true, some ⟨⟨0,0,1/8⟩, ⟨0,0,0⟩⟩, some ⟨⟨0,0,-1/4⟩, ⟨0,0,0⟩⟩,
      some ⟨[1/8], [1/4], [⟨1/6,1/6,0⟩], [⟨1/6,1/6,0⟩],
        [[⟨1/2,0,0⟩, ⟨0,1/2,0⟩, ⟨0,0,0⟩]], [[⟨1/2,0,0⟩, ⟨0,1/2,0⟩, ⟨0,0,0⟩]]⟩⟩ := by
  norm_num [contact_forces, identity_transform_apply,
    narrow_concrete_single_pair, loop_concrete_single_pair,
    assembleContactResult, sumContributions, Transform.rotApply,
    List.sum_cons, List.sum_nil, -Prod.mk_zero_zero]
  rfl

/-- Witness for C1's amended theorem at the concrete asymmetric-potential
run (`[1/8]` and `[1/4]` are the per-object pressure lists; the sums differ,
so the structure theorem applies with `s1 = 1/8 ≠ 1/4 = s2`). -/
theorem contact_forces_wrench_structure_witness :
    (⟨true, some ⟨⟨0,0,1/8⟩, ⟨0,0,0⟩⟩, some ⟨⟨0,0,-1/4⟩, ⟨0,0,0⟩⟩,
      some ⟨[1/8], [1/4], [⟨1/6,1/6,0⟩], [⟨1/6,1/6,0⟩],
        [[⟨1/2,0,0⟩, ⟨0,1/2,0⟩, ⟨0,0,0⟩]], [[⟨1/2,0,0⟩, ⟨0,1/2,0⟩, ⟨0,0,0⟩]]⟩⟩ :
      ContactResult).wrench12 =
    some ⟨([1/8] : List ℚ).sum •
      ((⟨⟨1,0,0⟩,⟨0,1,0⟩,⟨0,0,1⟩,⟨0,0,0⟩⟩ : Transform).rotApply
        (((fun _ _ => (true, 1, ⟨0,0,1⟩, ⟨0,0,0⟩)) :
            List Vec3 → List Vec3 → Bool × ℚ × Vec3 × Vec3)
          (([⟨0,0,-1⟩, ⟨1,0,1⟩, ⟨0,1,1⟩, ⟨0,0,1⟩] : List Vec3).map
            ((⟨⟨1,0,0⟩,⟨0,1,0⟩,⟨0,0,1⟩,⟨0,0,0⟩⟩ : Transform).concat
              (⟨⟨1,0,0⟩,⟨0,1,0⟩,⟨0,0,1⟩,⟨0,0,0⟩⟩ : Transform).invert).apply)
          [⟨0,0,-1⟩, ⟨1,0,1⟩, ⟨0,1,1⟩, ⟨0,0,1⟩]).2.2.1), 0⟩ :=
  (contact_forces_wrench_structure sqrtQ
    (fun _ _ => (true, 1, ⟨0,0,1⟩, ⟨0,0,0⟩)) (fun _ _ => true)
    ⟨⟨1,0,0⟩,⟨0,1,0⟩,⟨0,0,1⟩,⟨0,0,0⟩⟩ [⟨0,0,-1⟩, ⟨1,0,1⟩, ⟨0,1,1⟩, ⟨0,0,1⟩]
      [⟨0,1,2,3⟩] [1,1,1,1]
    ⟨⟨1,0,0⟩,⟨0,1,0⟩,⟨0,0,1⟩,⟨0,0,0⟩⟩ [⟨0,0,-1⟩, ⟨1,0,1⟩, ⟨0,1,1⟩, ⟨0,0,1⟩]
      [⟨0,1,2,3⟩] [2,2,2,2]
    _ _ contact_forces_concrete_details rfl rfl).1

/-- C3 (code-bug evidence): on a zero-length segment the source divides by
the zero parametric denominator; the `0/0` float `NaN` outcome (modelled as
`none`) is what is returned — not the distance to `segment_start` that the
spec requires. -/
theorem point_to_line_segment_degenerate_nan :
    point_to_line_segment ⟨1, 0, 0⟩ ⟨0, 0, 0⟩ ⟨0, 0, 0⟩ = none ∧
    point_to_line_segment ⟨1, 0, 0⟩ ⟨0, 0, 0⟩ ⟨0, 0, 0⟩ ≠
      some (Vec3.normSq ((⟨1, 0, 0⟩ : Vec3) - ⟨0, 0, 0⟩), ⟨0, 0, 0⟩) := by
  constructor
  · norm_num [point_to_line_segment]
  · simp [point_to_line_segment]

/-- C9: for a non-degenerate segment, when the unclamped projection parameter
`t` lies outside `[0,1]`, `point_to_line_segment` returns exactly the distance
to the corresponding clamped endpoint, with that endpoint as the closest point
(`segment_start` for `t < 0`, `segment_end` for `t > 1`). -/
theorem point_to_line_segment_clamps (point segmentStart segmentEnd : Vec3)
    (hd : Vec3.dot (segmentEnd - segmentStart) (segmentEnd - segmentStart) ≠ 0) :
    (Vec3.dot (point - segmentStart) (segmentEnd - segmentStart) /
        Vec3.dot (segmentEnd - segmentStart) (segmentEnd - segmentStart) < 0 →
      point_to_line_segment point segmentStart segmentEnd =
        some (Vec3.normSq (point - segmentStart), segmentStart)) ∧
    (1 < Vec3.dot (point - segmentStart) (segmentEnd - segmentStart) /
        Vec3.dot (segmentEnd - segmentStart) (segmentEnd - segmentStart) →
      point_to_line_segment point segmentStart segmentEnd =
        some (Vec3.normSq (point - segmentEnd), segmentEnd)) := by
  constructor
  · intro ht
    simp only [point_to_line_segment, if_neg hd]
    rw [max_eq_right ht.le, min_eq_left (by norm_num), Vec3.add_zero_smul]
  · intro ht
    simp only [point_to_line_segment, if_neg hd]
    rw [max_eq_left (by linarith), min_eq_right ht.le, Vec3.add_one_smul_sub]

/-- Witness for C9 at `point = (5,0,0)` on the segment from the origin to
`(1,0,0)` (unclamped parameter `t = 5 > 1`, clamped endpoint `(1,0,0)`). -/
theorem point_to_line_segment_clamps_witness :
    point_to_line_segment ⟨5, 0, 0⟩ ⟨0, 0, 0⟩ ⟨1, 0, 0⟩ =
      some (Vec3.normSq ((⟨5, 0, 0⟩ : Vec3) - ⟨1, 0, 0⟩), ⟨1, 0, 0⟩) :=
  (point_to_line_segment_clamps ⟨5, 0, 0⟩ ⟨0, 0, 0⟩ ⟨1, 0, 0⟩
    (by norm_num)).2 (by norm_num)

/-- C10: for a unit plane normal, the unsigned `point_to_plane` distance is
the absolute value of the signed one, both modes return the same closest
point on the plane, and reflecting the query point across the plane flips
the sign of the signed distance. -/
theorem point_to_plane_signed_unsigned (point planePoint planeNormal : Vec3)
    (hunit : Vec3.normSq planeNormal = 1) :
    (point_to_plane point planePoint planeNormal false).1 =
      |(point_to_plane point planePoint planeNormal true).1| ∧
    (point_to_plane point planePoint planeNormal false).2 =
      (point_to_plane point planePoint planeNormal true).2 ∧
    (point_to_plane
        (point - (2 * Vec3.dot planeNormal (point - planePoint)) • planeNormal)
        planePoint planeNormal true).1 =
      -(point_to_plane point planePoint planeNormal true).1 := by
  refine ⟨by simp [point_to_plane], by simp [point_to_plane], ?_⟩
  simp only [point_to_plane, if_pos]
  cases point with
  | mk px py pz =>
    cases planePoint with
    | mk qx qy qz =>
      cases planeNormal with
      | mk nx ny nz =>
        simp only [Vec3.normSq_def] at hunit
        simp only [Vec3.sub_def, Vec3.smul_def, Vec3.dot_def]
        linear_combination
          (-2 * (nx * (px - qx) + ny * (py - qy) + nz * (pz - qz))) * hunit

/-- Witness for C10 with the unit normal `(0,0,1)` at the point `(1,2,-3)`. -/
theorem point_to_plane_signed_unsigned_witness :
    (point_to_plane ⟨1, 2, -3⟩ ⟨0, 0, 0⟩ ⟨0, 0, 1⟩ false).1 =
      |(point_to_plane ⟨1, 2, -3⟩ ⟨0, 0, 0⟩ ⟨0, 0, 1⟩ true).1| ∧
    (point_to_plane ⟨1, 2, -3⟩ ⟨0, 0, 0⟩ ⟨0, 0, 1⟩ false).2 =
      (point_to_plane ⟨1, 2, -3⟩ ⟨0, 0, 0⟩ ⟨0, 0, 1⟩ true).2 ∧
    (point_to_plane
        ((⟨1, 2, -3⟩ : Vec3) -
          (2 * Vec3.dot ⟨0, 0, 1⟩ ((⟨1, 2, -3⟩ : Vec3) - ⟨0, 0, 0⟩)) • ⟨0, 0, 1⟩)
        ⟨0, 0, 0⟩ ⟨0, 0, 1⟩ true).1 =
      -(point_to_plane ⟨1, 2, -3⟩ ⟨0, 0, 0⟩ ⟨0, 0, 1⟩ true).1 :=
  point_to_plane_signed_unsigned ⟨1, 2, -3⟩ ⟨0, 0, 0⟩ ⟨0, 0, 1⟩ (by norm_num)

/-- C8: whenever the external penetration query reports no intersection,
`contact_forces` returns `(false, None, None)` — the `ContactResult` with
`details = none` also models the 4-tuple `(false, None, None, None)` of the
diagnostics mode — as a value (never an exception), and the result is the
same whatever the tetrahedra and potentials are: no broad- or narrow-phase
outcome can influence it. -/
theorem contact_forces_no_intersection_early_return (rt : ℚ → ℚ)
    (mpr : List Vec3 → List Vec3 → Bool × ℚ × Vec3 × Vec3)
    (gjk : List Vec3 → List Vec3 → Bool)
    (m12o : Transform) (V1 : List Vec3) (T1 : List Tet4) (P1 : List ℚ)
    (m22o : Transform) (V2 : List Vec3) (T2 : List Tet4) (P2 : List ℚ)
    (rd : Bool)
    (h : (mpr (V1.map (m12o.concat m22o.invert).apply) V2).1 = false) :
    contact_forces rt mpr gjk m12o V1 T1 P1 m22o V2 T2 P2 rd =
      some ⟨false, none, none, none⟩ ∧
    (∀ (T1' : List Tet4) (P1' : List ℚ) (T2' : List Tet4) (P2' : List ℚ)
        (rd' : Bool),
      contact_forces rt mpr gjk m12o V1 T1' P1' m22o V2 T2' P2' rd' =
        some ⟨false, none, none, none⟩) := by
  constructor
  · simp only [contact_forces]
    rw [h, if_pos rfl]
  · intro T1' P1' T2' P2' rd'
    simp only [contact_forces]
    rw [h, if_pos rfl]

/-- Witness for C8: a penetration query that answers "no intersection" makes
`contact_forces` return the no-contact triple on a concrete mesh pair. -/
theorem contact_forces_no_intersection_early_return_witness :
    contact_forces (fun q => q)
      (fun _ _ => (false, 0, ⟨0, 0, 0⟩, ⟨0, 0, 0⟩)) (fun _ _ => false)
      ⟨⟨1,0,0⟩,⟨0,1,0⟩,⟨0,0,1⟩,⟨0,0,0⟩⟩ [⟨0, 0, 0⟩] [⟨0, 0, 0, 0⟩] [1]
      ⟨⟨1,0,0⟩,⟨0,1,0⟩,⟨0,0,1⟩,⟨0,0,0⟩⟩ [⟨0, 0, 0⟩] [⟨0, 0, 0, 0⟩] [1]
      true = some ⟨false, none, none, none⟩ :=
  (contact_forces_no_intersection_early_return (fun q => q)
    (fun _ _ => (false, 0, ⟨0, 0, 0⟩, ⟨0, 0, 0⟩)) (fun _ _ => false)
    ⟨⟨1,0,0⟩,⟨0,1,0⟩,⟨0,0,1⟩,⟨0,0,0⟩⟩ [⟨0, 0, 0⟩] [⟨0, 0, 0, 0⟩] [1]
    ⟨⟨1,0,0⟩,⟨0,1,0⟩,⟨0,0,1⟩,⟨0,0,0⟩⟩ [⟨0, 0, 0⟩] [⟨0, 0, 0, 0⟩] [1]
    true rfl).1

lemma signQ_neg {a : ℚ} (h : a < 0) : signQ a = -1 := by
  simp [signQ, h, asymm h]

lemma signQ_zero : signQ 0 = 0 := by simp [signQ]

lemma signQ_pos {a : ℚ} (h : 0 < a) : signQ a = 1 := by
  simp [signQ, h]

/-- The three-valued sign comparison at the heart of the straddle test,
characterized for ordered arguments. -/
lemma signQ_ne_iff {m M : ℚ} (hmM : m ≤ M) :
    signQ m ≠ signQ M ↔ ((m < 0 ∧ 0 ≤ M) ∨ (m = 0 ∧ 0 < M)) := by
  rcases lt_trichotomy m 0 with hm | hm | hm
  · rcases lt_trichotomy M 0 with hM | hM | hM
    · rw [signQ_neg hm, signQ_neg hM]
      exact iff_of_false (fun hcon => hcon rfl)
        (by rintro (⟨_, hle⟩ | ⟨heq, _⟩) <;> linarith)
    · rw [signQ_neg hm, hM, signQ_zero]
      exact iff_of_true (by norm_num) (Or.inl ⟨hm, le_refl 0⟩)
    · rw [signQ_neg hm, signQ_pos hM]
      exact iff_of_true (by norm_num) (Or.inl ⟨hm, hM.le⟩)
  · rcases lt_trichotomy M 0 with hM | hM | hM
    · exact absurd hmM (by rw [hm]; exact not_le.mpr hM)
    · rw [hm, hM, signQ_zero]
      exact iff_of_false (fun hcon => hcon rfl)
        (by rintro (⟨hlt, _⟩ | ⟨_, hpos⟩) <;> linarith)
    · rw [hm, signQ_zero, signQ_pos hM]
      exact iff_of_true (by norm_num) (Or.inr ⟨rfl, hM⟩)
  · rcases lt_trichotomy M 0 with hM | hM | hM
    · exact absurd hmM (not_le.mpr (by linarith))
    · exact absurd hmM (not_le.mpr (by linarith))
    · rw [signQ_pos hm, signQ_pos hM]
      exact iff_of_false (fun hcon => hcon rfl)
        (by rintro (⟨hlt, _⟩ | ⟨heq, _⟩) <;> linarith)

/-- C2 (amended): a tetrahedron is retained by `intersecting_tetrahedra`'s
per-row test (three-valued `sign(min) != sign(max)`) iff its four signed
distances contain both a strictly negative and a non-negative value, OR their
minimum is exactly zero while their maximum is strictly positive. -/
theorem intersecting_tetrahedra_retention_iff (V : List Vec3) (tet : Tet4)
    (cp n : Vec3) :
    tetrahedronStraddles V tet cp n = true ↔
      (min (min (min (Vec3.dot (vertAt V tet.i0 - cp) n)
          (Vec3.dot (vertAt V tet.i1 - cp) n))
          (Vec3.dot (vertAt V tet.i2 - cp) n))
          (Vec3.dot (vertAt V tet.i3 - cp) n) < 0 ∧
        0 ≤ max (max (max (Vec3.dot (vertAt V tet.i0 - cp) n)
          (Vec3.dot (vertAt V tet.i1 - cp) n))
          (Vec3.dot (vertAt V tet.i2 - cp) n))
          (Vec3.dot (vertAt V tet.i3 - cp) n)) ∨
      (min (min (min (Vec3.dot (vertAt V tet.i0 - cp) n)
          (Vec3.dot (vertAt V tet.i1 - cp) n))
          (Vec3.dot (vertAt V tet.i2 - cp) n))
          (Vec3.dot (vertAt V tet.i3 - cp) n) = 0 ∧
        0 < max (max (max (Vec3.dot (vertAt V tet.i0 - cp) n)
          (Vec3.dot (vertAt V tet.i1 - cp) n))
          (Vec3.dot (vertAt V tet.i2 - cp) n))
          (Vec3.dot (vertAt V tet.i3 - cp) n)) := by
  simp only [tetrahedronStraddles, decide_eq_true_eq]
  apply signQ_ne_iff
  exact le_trans (le_trans (min_le_left _ _) (le_trans (min_le_left _ _)
    (le_trans (min_le_left _ _) (le_max_left _ _))))
    (le_trans (le_max_left _ _) (le_max_left _ _))

/-- C2 (counterexample): the tetrahedron with signed distances `(0,1,1,1)` to
the plane `z = 0` has no strictly negative distance, so by the claim the
straddle test should return `False`; `intersecting_tetrahedra` retains it. -/
theorem intersecting_tetrahedra_nonneg_retained_cex :
    points_to_plane_signed [⟨0,0,0⟩, ⟨1,0,1⟩, ⟨0,1,1⟩, ⟨0,0,1⟩] ⟨0,0,0⟩
      ⟨0,0,1⟩ = [0, 1, 1, 1] ∧
    intersecting_tetrahedra [⟨0,0,0⟩, ⟨1,0,1⟩, ⟨0,1,1⟩, ⟨0,0,1⟩] [⟨0,1,2,3⟩]
      ⟨0,0,0⟩ ⟨0,0,1⟩ = [true] := by
  constructor
  · norm_num [points_to_plane_signed]
  · norm_num [intersecting_tetrahedra, tetrahedronStraddles, vertAt, signQ]

lemma flatMap_map_length {α β γ : Type} (l : List α) (g : List β)
    (f : α → β → γ) :
    (l.flatMap fun a => g.map (f a)).length = l.length * g.length := by
  induction l with
  | nil => simp
  | cons a t ih => simp [List.flatMap_cons, ih, Nat.succ_mul, Nat.add_comm]

/-- The raw intersection-point count of the projector is the product of the
negative and non-negative vertex counts. -/
lemma projectionRawPoints_length (planePoint planeNormal : Vec3)
    (tetrahedronPoints : List Vec3) :
    (projectionRawPoints planePoint planeNormal tetrahedronPoints).length =
      (projectionNegIndices planePoint planeNormal tetrahedronPoints).length *
      (projectionPosIndices planePoint planeNormal tetrahedronPoints).length := by
  unfold projectionRawPoints
  exact flatMap_map_length _ _ _

/-- C5: `contact_plane_projection` yields exactly 3 intersection points for a
(1 negative, 3 non-negative) vertex split and exactly 4 for a (2,2) split;
whenever fewer than 3 raw intersection points result it aborts (the modelled
`AssertionError`, `none`) instead of returning a polygon. -/
theorem contact_plane_projection_split_counts (planePoint planeNormal : Vec3)
    (pts : List Vec3) :
    ((projectionNegIndices planePoint planeNormal pts).length = 1 ∧
     (projectionPosIndices planePoint planeNormal pts).length = 3 →
      contact_plane_projection planePoint planeNormal pts =
        some (projectionRawPoints planePoint planeNormal pts) ∧
      (projectionRawPoints planePoint planeNormal pts).length = 3) ∧
    ((projectionNegIndices planePoint planeNormal pts).length = 2 ∧
     (projectionPosIndices planePoint planeNormal pts).length = 2 →
      contact_plane_projection planePoint planeNormal pts =
        some (projectionRawPoints planePoint planeNormal pts) ∧
      (projectionRawPoints planePoint planeNormal pts).length = 4) ∧
    ((projectionRawPoints planePoint planeNormal pts).length < 3 →
      contact_plane_projection planePoint planeNormal pts = none) := by
  refine ⟨?_, ?_, ?_⟩
  · rintro ⟨h1, h2⟩
    have hlen : (projectionRawPoints planePoint planeNormal pts).length = 3 := by
      rw [projectionRawPoints_length, h1, h2]
    refine ⟨?_, hlen⟩
    unfold contact_plane_projection
    rw [if_pos (by omega)]
  · rintro ⟨h1, h2⟩
    have hlen : (projectionRawPoints planePoint planeNormal pts).length = 4 := by
      rw [projectionRawPoints_length, h1, h2]
    refine ⟨?_, hlen⟩
    unfold contact_plane_projection
    rw [if_pos (by omega)]
  · intro h
    unfold contact_plane_projection
    rw [if_neg (by omega)]

/-- Witness for C5 at the (1,3)-split tetrahedron
`(0,0,-1), (1,0,1), (0,1,1), (0,0,1)` against the plane `z = 0`. -/
theorem contact_plane_projection_split_counts_witness :
    ((projectionNegIndices ⟨0,0,0⟩ ⟨0,0,1⟩
        [⟨0,0,-1⟩, ⟨1,0,1⟩, ⟨0,1,1⟩, ⟨0,0,1⟩]).length = 1 ∧
     (projectionPosIndices ⟨0,0,0⟩ ⟨0,0,1⟩
        [⟨0,0,-1⟩, ⟨1,0,1⟩, ⟨0,1,1⟩, ⟨0,0,1⟩]).length = 3) ∧
    (contact_plane_projection ⟨0,0,0⟩ ⟨0,0,1⟩
        [⟨0,0,-1⟩, ⟨1,0,1⟩, ⟨0,1,1⟩, ⟨0,0,1⟩] =
      some (projectionRawPoints ⟨0,0,0⟩ ⟨0,0,1⟩
        [⟨0,0,-1⟩, ⟨1,0,1⟩, ⟨0,1,1⟩, ⟨0,0,1⟩]) ∧
     (projectionRawPoints ⟨0,0,0⟩ ⟨0,0,1⟩
        [⟨0,0,-1⟩, ⟨1,0,1⟩, ⟨0,1,1⟩, ⟨0,0,1⟩]).length = 3) :=
  have h : (projectionNegIndices ⟨0,0,0⟩ ⟨0,0,1⟩
        [⟨0,0,-1⟩, ⟨1,0,1⟩, ⟨0,1,1⟩, ⟨0,0,1⟩]).length = 1 ∧
      (projectionPosIndices ⟨0,0,0⟩ ⟨0,0,1⟩
        [⟨0,0,-1⟩, ⟨1,0,1⟩, ⟨0,1,1⟩, ⟨0,0,1⟩]).length = 3 :=
    ⟨by norm_num [projectionNegIndices, points_to_plane_signed, signQ,
        List.range_succ, List.filter],
     by norm_num [projectionPosIndices, points_to_plane_signed, signQ,
        List.range_succ, List.filter]⟩
  ⟨h, (contact_plane_projection_split_counts ⟨0,0,0⟩ ⟨0,0,1⟩
    [⟨0,0,-1⟩, ⟨1,0,1⟩, ⟨0,1,1⟩, ⟨0,0,1⟩]).1 h⟩

/-- C6: the tetrahedron `(0,0,0), (1,0,1), (0,1,1), (0,0,1)` (signed
distances `(0,1,1,1)` — all non-negative with minimum exactly zero) is
accepted by the narrow-phase straddle test, yet the projector's negative
vertex set is empty, zero intersection points are produced, and the
fewer-than-3-points assertion fires (modelled `none`): the straddle test does
not establish the projector's precondition. -/
theorem straddle_accepts_projection_failure :
    intersecting_tetrahedra [⟨0,0,0⟩, ⟨1,0,1⟩, ⟨0,1,1⟩, ⟨0,0,1⟩] [⟨0,1,2,3⟩]
      ⟨0,0,0⟩ ⟨0,0,1⟩ = [true] ∧
    projectionNegIndices ⟨0,0,0⟩ ⟨0,0,1⟩
      (tetrahedronPoints [⟨0,0,0⟩, ⟨1,0,1⟩, ⟨0,1,1⟩, ⟨0,0,1⟩] ⟨0,1,2,3⟩) = [] ∧
    projectionRawPoints ⟨0,0,0⟩ ⟨0,0,1⟩
      (tetrahedronPoints [⟨0,0,0⟩, ⟨1,0,1⟩, ⟨0,1,1⟩, ⟨0,0,1⟩] ⟨0,1,2,3⟩) = [] ∧
    contact_plane_projection ⟨0,0,0⟩ ⟨0,0,1⟩
      (tetrahedronPoints [⟨0,0,0⟩, ⟨1,0,1⟩, ⟨0,1,1⟩, ⟨0,0,1⟩] ⟨0,1,2,3⟩) =
      none := by
  refine ⟨?_, ?_, ?_, ?_⟩
  · norm_num [intersecting_tetrahedra, tetrahedronStraddles, vertAt, signQ]
  · norm_num [projectionNegIndices, tetrahedronPoints, vertAt,
      points_to_plane_signed, signQ, List.range_succ, List.filter]
  · norm_num [projectionRawPoints, projectionNegIndices, tetrahedronPoints,
      vertAt, points_to_plane_signed, signQ, List.range_succ, List.filter]
  · norm_num [contact_plane_projection, projectionRawPoints,
      projectionNegIndices, tetrahedronPoints, vertAt, points_to_plane_signed,
      signQ, List.range_succ, List.filter]

/-- C7 (counterexample): the unit directions `(1,0,0)` and
`(3239999/3240001, 3600/3240001, 0)` satisfy `|d1 ⬝ d2| > 1 - ε` for
`ε = 10⁻⁶`, yet `1 - (d1 ⬝ d2)² ≈ 1.23·10⁻⁶ ≥ ε`, so `_line_to_line` takes
the general (non-parallel) branch: the returned closest point on line 2 is
not `line_point2`, and the returned distance (0 — the coplanar lines
intersect) is not the point-to-line distance from `line_point1` to line 2. -/
theorem line_to_line_near_parallel_cex :
    Vec3.normSq ⟨1, 0, 0⟩ = 1 ∧
    Vec3.normSq ⟨3239999/3240001, 3600/3240001, 0⟩ = 1 ∧
    1 - 1/1000000 <
      |Vec3.dot ⟨1, 0, 0⟩ ⟨3239999/3240001, 3600/3240001, 0⟩| ∧
    lineToLineParallelBranch ⟨1, 0, 0⟩ ⟨3239999/3240001, 3600/3240001, 0⟩
      (1/1000000) = false ∧
    (lineToLine ⟨0, 0, 0⟩ ⟨1, 0, 0⟩ ⟨0, 1, 0⟩
      ⟨3239999/3240001, 3600/3240001, 0⟩ (1/1000000)).contactPoint2 ≠
      ⟨0, 1, 0⟩ ∧
    (lineToLine ⟨0, 0, 0⟩ ⟨1, 0, 0⟩ ⟨0, 1, 0⟩
      ⟨3239999/3240001, 3600/3240001, 0⟩ (1/1000000)).distSq ≠
      (pointToLine ⟨0, 0, 0⟩ ⟨0, 1, 0⟩
        ⟨3239999/3240001, 3600/3240001, 0⟩).distSq := by
  have habs1 : |(3239999 : ℚ)/3240001| = 3239999/3240001 :=
    abs_of_pos (by norm_num)
  have habs2 : |(12960000 : ℚ)/10497606480001| = 12960000/10497606480001 :=
    abs_of_pos (by norm_num)
  refine ⟨by norm_num, by norm_num, by norm_num [habs1], ?_, ?_, ?_⟩
  · norm_num [lineToLineParallelBranch, habs2]
  · norm_num [lineToLine, habs2, Vec3.mk.injEq]
  · norm_num [lineToLine, pointToLine, habs2]

/-- C7 (amended): when the code's actual parallel test `|1 - (d1 ⬝ d2)²| < ε`
holds (for a unit `d1`), `_line_to_line` takes the parallel fallback branch,
returns `line_point2` as the closest point on line 2, and returns the
point-to-line distance from `line_point1` to the line through `line_point2`
with direction `d1` (which is line 2 itself whenever the lines are exactly
parallel). -/
theorem line_to_line_parallel_fallback (p1 d1 p2 d2 : Vec3) (epsilon : ℚ)
    (hunit : Vec3.normSq d1 = 1)
    (hdet : |1 - Vec3.dot d1 d2 * Vec3.dot d1 d2| < epsilon) :
    lineToLineParallelBranch d1 d2 epsilon = true ∧
    (lineToLine p1 d1 p2 d2 epsilon).contactPoint2 = p2 ∧
    (lineToLine p1 d1 p2 d2 epsilon).distSq = (pointToLine p1 p2 d1).distSq := by
  have hcond : ¬ (epsilon ≤ |1 - -(Vec3.dot d1 d2) * -(Vec3.dot d1 d2)|) := by
    rw [neg_mul_neg]
    exact not_le.mpr hdet
  refine ⟨?_, ?_, ?_⟩
  · simp only [lineToLineParallelBranch, decide_eq_true_eq]
    exact hcond
  · simp only [lineToLine]
    rw [if_neg hcond]
  · simp only [lineToLine, pointToLine]
    rw [if_neg hcond]
    cases p1 with
    | mk ax ay az =>
      cases p2 with
      | mk bx bxy bz =>
        cases d1 with
        | mk ux uy uz =>
          simp only [Vec3.normSq_def] at hunit
          simp only [Vec3.sub_def, Vec3.smul_def, Vec3.dot_def,
            Vec3.normSq_def]
          set t := ux * (ax - bx) + uy * (ay - bxy) + uz * (az - bz) with ht
          have h2 : ((ax - bx) - t * ux) * ((ax - bx) - t * ux) +
              ((ay - bxy) - t * uy) * ((ay - bxy) - t * uy) +
              ((az - bz) - t * uz) * ((az - bz) - t * uz) =
              t * -t + ((ax - bx) * (ax - bx) + (ay - bxy) * (ay - bxy) +
                (az - bz) * (az - bz)) := by
            rw [ht]
            linear_combination
              ((ux * (ax - bx) + uy * (ay - bxy) + uz * (az - bz)) *
                (ux * (ax - bx) + uy * (ay - bxy) + uz * (az - bz))) * hunit
          rw [h2]
          apply abs_of_nonneg
          nlinarith [sq_nonneg (uy * (az - bz) - uz * (ay - bxy)),
            sq_nonneg (ux * (az - bz) - uz * (ax - bx)),
            sq_nonneg (ux * (ay - bxy) - uy * (ax - bx)), hunit]

/-- Witness for C7's amended theorem: exactly parallel unit directions
`d1 = d2 = (1,0,0)` with `ε = 10⁻⁶`, `p1 = (0,2,0)`, `p2 = (0,0,0)`. -/
theorem line_to_line_parallel_fallback_witness :
    lineToLineParallelBranch ⟨1, 0, 0⟩ ⟨1, 0, 0⟩ (1/1000000) = true ∧
    (lineToLine ⟨0, 2, 0⟩ ⟨1, 0, 0⟩ ⟨0, 0, 0⟩ ⟨1, 0, 0⟩
      (1/1000000)).contactPoint2 = ⟨0, 0, 0⟩ ∧
    (lineToLine ⟨0, 2, 0⟩ ⟨1, 0, 0⟩ ⟨0, 0, 0⟩ ⟨1, 0, 0⟩
      (1/1000000)).distSq =
      (pointToLine ⟨0, 2, 0⟩ ⟨0, 0, 0⟩ ⟨1, 0, 0⟩).distSq :=
  line_to_line_parallel_fallback ⟨0, 2, 0⟩ ⟨1, 0, 0⟩ ⟨0, 0, 0⟩ ⟨1, 0, 0⟩
    (1/1000000) (by norm_num) (by norm_num)

set_option maxHeartbeats 1000000 in
/-- Because the source never reassigns `last1`, the integration loop is
extensionally the reference recompute-per-pair integrator: from any state
whose `last1` is still the initial `-1`, the two produce the same pair of
contribution maps. -/
lemma integrateLoop_eq_referenceIntegrate (rt : ℚ → ℚ)
    (gjk : List Vec3 → List Vec3 → Bool)
    (vertices1 : List Vec3) (tetrahedra1 : List Tet4) (potentials1 : List ℚ)
    (vertices2 : List Vec3) (tetrahedra2 : List Tet4) (potentials2 : List ℚ)
    (contactPoint normal : Vec3) (pairs : List (ℕ × ℕ)) :
    ∀ (forces1 forces2 : List (ℕ × Contribution))
      (cur : Option (List Vec3 × Contribution)),
      (integrateLoop rt gjk vertices1 tetrahedra1 potentials1 vertices2
          tetrahedra2 potentials2 contactPoint normal pairs
          ⟨forces1, forces2, -1, cur⟩).map
        (fun st => (st.forces1, st.forces2)) =
      referenceIntegrate rt gjk vertices1 tetrahedra1 potentials1 vertices2
        tetrahedra2 potentials2 contactPoint normal pairs forces1 forces2 := by
  induction pairs with
  | nil =>
    intro forces1 forces2 cur
    rfl
  | cons pair rest ih =>
    intro forces1 forces2 cur
    have hguard : ((pair.1 : ℤ) ≠ (-1 : ℤ)) := by omega
    rw [integrateLoop, referenceIntegrate]
    simp only [integrateStep]
    rw [if_pos hguard]
    cases hc1 : tetrahedronContribution rt vertices1 potentials1
        (tetrahedra1.getD pair.1 ⟨0, 0, 0, 0⟩) contactPoint normal with
    | none => rfl
    | some contrib1 =>
      dsimp only
      cases hg : gjk (tetrahedronPoints vertices1
          (tetrahedra1.getD pair.1 ⟨0, 0, 0, 0⟩))
          (tetrahedronPoints vertices2
            (tetrahedra2.getD pair.2 ⟨0, 0, 0, 0⟩)) with
      | false =>
        rw [if_neg (by simp : ¬(false = true))]
        exact ih forces1 forces2 _
      | true =>
        rw [if_pos rfl]
        cases hc2 : tetrahedronContribution rt vertices2 potentials2
            (tetrahedra2.getD pair.2 ⟨0, 0, 0, 0⟩) contactPoint normal with
        | none => rfl
        | some contrib2 =>
          exact ih _ _ _

/-- C4 (code-bug evidence): on the confirmed pair list `[(0,0), (0,1)]` —
the same object-1 tetrahedron index 0 paired twice — the memo-guard replay
records index 0 as computed twice (`last1` is initialized to `-1` and never
reassigned, so the guard fires on every iteration); the loop still executes
to the state whose contribution maps equal those of the reference
recompute-per-pair integrator at this input. -/
theorem pressure_integrator_memo_recomputes :
    integrateComputedIndices1 (-1) [(0, 0), (0, 1)] = [0, 0] ∧
    integrateLoop sqrtQ (fun _ _ => true)
        [⟨0,0,-1⟩, ⟨1,0,1⟩, ⟨0,1,1⟩, ⟨0,0,1⟩] [⟨0,1,2,3⟩] [1,1,1,1]
        [⟨0,0,-1⟩, ⟨1,0,1⟩, ⟨0,1,1⟩, ⟨0,0,1⟩] [⟨0,1,2,3⟩, ⟨0,1,2,3⟩] [1,1,1,1]
        ⟨0,0,0⟩ ⟨0,0,1⟩ [(0, 0), (0, 1)] ⟨[], [], -1, none⟩ =
      some ⟨[(0, ⟨1/8, ⟨1/6,1/6,0⟩, [⟨1/2,0,0⟩, ⟨0,1/2,0⟩, ⟨0,0,0⟩]⟩)],
            [(0, ⟨1/8, ⟨1/6,1/6,0⟩, [⟨1/2,0,0⟩, ⟨0,1/2,0⟩, ⟨0,0,0⟩]⟩),
             (1, ⟨1/8, ⟨1/6,1/6,0⟩, [⟨1/2,0,0⟩, ⟨0,1/2,0⟩, ⟨0,0,0⟩]⟩)],
            -1,
            some (tetrahedronPoints [⟨0,0,-1⟩, ⟨1,0,1⟩, ⟨0,1,1⟩, ⟨0,0,1⟩]
              ⟨0,1,2,3⟩,
              ⟨1/8, ⟨1/6,1/6,0⟩, [⟨1/2,0,0⟩, ⟨0,1/2,0⟩, ⟨0,0,0⟩]⟩)⟩ ∧
    (integrateLoop sqrtQ (fun _ _ => true)
        [⟨0,0,-1⟩, ⟨1,0,1⟩, ⟨0,1,1⟩, ⟨0,0,1⟩] [⟨0,1,2,3⟩] [1,1,1,1]
        [⟨0,0,-1⟩, ⟨1,0,1⟩, ⟨0,1,1⟩, ⟨0,0,1⟩] [⟨0,1,2,3⟩, ⟨0,1,2,3⟩] [1,1,1,1]
        ⟨0,0,0⟩ ⟨0,0,1⟩ [(0, 0), (0, 1)] ⟨[], [], -1, none⟩).map
      (fun st => (st.forces1, st.forces2)) =
      referenceIntegrate sqrtQ (fun _ _ => true)
        [⟨0,0,-1⟩, ⟨1,0,1⟩, ⟨0,1,1⟩, ⟨0,0,1⟩] [⟨0,1,2,3⟩] [1,1,1,1]
        [⟨0,0,-1⟩, ⟨1,0,1⟩, ⟨0,1,1⟩, ⟨0,0,1⟩] [⟨0,1,2,3⟩, ⟨0,1,2,3⟩] [1,1,1,1]
        ⟨0,0,0⟩ ⟨0,0,1⟩ [(0, 0), (0, 1)] [] [] := by
  refine ⟨?_, ?_, ?_⟩
  · norm_num [integrateComputedIndices1]
  · norm_num [integrateLoop, integrateStep, contribution_concrete_pot1,
      updateAssoc, -Prod.mk_zero_zero]
  · exact integrateLoop_eq_referenceIntegrate sqrtQ (fun _ _ => true)
      [⟨0,0,-1⟩, ⟨1,0,1⟩, ⟨0,1,1⟩, ⟨0,0,1⟩] [⟨0,1,2,3⟩] [1,1,1,1]
      [⟨0,0,-1⟩, ⟨1,0,1⟩, ⟨0,1,1⟩, ⟨0,0,1⟩] [⟨0,1,2,3⟩, ⟨0,1,2,3⟩] [1,1,1,1]
      ⟨0,0,0⟩ ⟨0,0,1⟩ [(0, 0), (0, 1)] [] [] none
